import Mathlib

/-!
# Stellarium Mount Controller — verification of the serial stepper controller

Shallow embedding of `src/StellariumMount/StellariumMount.ino` (Arduino Uno
sketch driving two 28BYJ-48 steppers).  The sketch's global variables become
fields of `MountState`; each C function becomes a Lean function on
`MountState`.  Arduino `int` values are modelled as `Int` (the only place
where the 16-bit width of `int` on the AVR is observable is the
`long → int` conversion of `String::toInt`'s result, modelled by `wrap16`).
Serial output is modelled as a list of emitted lines; the coil pins of each
motor are modelled as the last 4-bit pattern written to them, plus a counter
of physical step transitions per axis.
-/

/-- `stepSequence[8][4]` — the fixed 8-entry half-step coil table. -/
def stepSequence : List (List Nat) :=
  [[1, 0, 0, 0],
   [1, 1, 0, 0],
   [0, 1, 0, 0],
   [0, 1, 1, 0],
   [0, 0, 1, 0],
   [0, 0, 1, 1],
   [0, 0, 0, 1],
   [1, 0, 0, 1]]

/-- `STEPS_PER_REVOLUTION = 2048`. -/
def STEPS_PER_REVOLUTION : Int := 2048

/-- `AZIMUTH_MAX_STEPS = STEPS_PER_REVOLUTION`. -/
def AZIMUTH_MAX_STEPS : Int := STEPS_PER_REVOLUTION

/-- `ALTITUDE_MAX_STEPS = STEPS_PER_REVOLUTION / 2`. -/
def ALTITUDE_MAX_STEPS : Int := STEPS_PER_REVOLUTION / 2

/-- Arduino `constrain(amt, low, high)`:
`(amt < low) ? low : ((amt > high) ? high : amt)`. -/
def constrain (amt low high : Int) : Int :=
  if amt < low then low else if amt > high then high else amt

/-- C `isspace` over the ASCII characters used by `String::trim`. -/
def isSpaceChar (c : Char) : Bool :=
  c = ' ' || c = '\t' || c = '\n' || c = '\x0b' || c = '\x0c' || c = '\r'

/-- Drop leading and trailing `isspace` characters, as `String::trim` does. -/
def trimChars (l : List Char) : List Char :=
  ((l.dropWhile isSpaceChar).reverse.dropWhile isSpaceChar).reverse

/-- `String::trim()` of the Arduino `String` class. -/
def trim (s : String) : String := String.mk (trimChars s.data)

/-- ASCII `toupper` on one character. -/
def toUpperChar (c : Char) : Char :=
  if 'a' ≤ c ∧ c ≤ 'z' then Char.ofNat (c.toNat - 32) else c

/-- `String::toUpperCase()` of the Arduino `String` class (ASCII). -/
def toUpperCase (s : String) : String := String.mk (s.data.map toUpperChar)

/-- `String::startsWith(p)`: the characters of `p` are an initial segment
of the characters of `s`. -/
def startsWithStr (s p : String) : Bool := p.data.isPrefixOf s.data

/-- `String::substring(n)`: the characters of `s` from index `n` on. -/
def dropStr (n : Nat) (s : String) : String := String.mk (s.data.drop n)

/-- The digit-consuming loop of `atol`: accumulate decimal digits, stop at
the first non-digit. -/
def readDigits : List Char → Int → Int
  | [], acc => acc
  | c :: rest, acc =>
      if c.isDigit then readDigits rest (acc * 10 + (c.toNat - 48)) else acc

/-- `String::toInt()` (which calls `atol`): skip leading whitespace, an
optional sign, then leading decimal digits; no digits means 0. -/
def toInt (s : String) : Int :=
  match s.data.dropWhile isSpaceChar with
  | '-' :: rest => - readDigits rest 0
  | '+' :: rest => readDigits rest 0
  | l => readDigits l 0

/-- The `long → int` conversion on the AVR target, where `int` is 16 bits
(two's-complement wraparound). -/
def wrap16 (n : Int) : Int := (n + 32768) % 65536 - 32768

/-- The sketch's global state.  `currentStep` is the `static int` local of
`stepMotor`, shared by both motors.  `azimuthPattern` / `altitudePattern`
record the last coil pattern written to each motor's pins,
`azPhysicalSteps` / `alPhysicalSteps` count the physical step transitions
(calls of `stepMotor`) per axis, and `serialOut` records the lines written
to the serial port. -/
structure MountState where
  azimuthStep : Int
  altitudeStep : Int
  azimuthTarget : Int
  altitudeTarget : Int
  azimuthMoving : Bool
  altitudeMoving : Bool
  testAzimuthOnly : Bool
  testAltitudeOnly : Bool
  testBothMotors : Bool
  currentStep : Int
  azimuthPattern : List Nat
  altitudePattern : List Nat
  azPhysicalSteps : Nat
  alPhysicalSteps : Nat
  inputString : List Char
  stringComplete : Bool
  serialOut : List String
  deriving Repr, DecidableEq

/-- State after `setup()`: all globals at their initializers, both motors'
pins driven LOW.  (The startup banner is omitted from `serialOut`.) -/
def initState : MountState where
  azimuthStep := 0
  altitudeStep := 0
  azimuthTarget := 0
  altitudeTarget := 0
  azimuthMoving := false
  altitudeMoving := false
  testAzimuthOnly := false
  testAltitudeOnly := false
  testBothMotors := true
  currentStep := 0
  azimuthPattern := [0, 0, 0, 0]
  altitudePattern := [0, 0, 0, 0]
  azPhysicalSteps := 0
  alPhysicalSteps := 0
  inputString := []
  stringComplete := false
  serialOut := []

/-- The phase-index update inside `stepMotor`:
`(currentStep + 1) % 8` forward, `(currentStep - 1 + 8) % 8` backward.
(C `%` on these non-negative operands agrees with `Int.emod`.) -/
def nextPhaseIndex (currentStep direction : Int) : Int :=
  if direction > 0 then (currentStep + 1) % 8 else (currentStep - 1 + 8) % 8

/-- `stepMotor(motorPins, direction)`: advance the shared static phase
index and write the table entry at the new index to the given motor's pins.
`isAzimuth` selects which pins array was passed. -/
def stepMotor (isAzimuth : Bool) (direction : Int) (s : MountState) : MountState :=
  let c := nextPhaseIndex s.currentStep direction
  let pat := stepSequence.getD c.toNat [0, 0, 0, 0]
  if isAzimuth then
    { s with currentStep := c, azimuthPattern := pat,
             azPhysicalSteps := s.azPhysicalSteps + 1 }
  else
    { s with currentStep := c, altitudePattern := pat,
             alPhysicalSteps := s.alPhysicalSteps + 1 }

/-- `moveAzimuthTo(target)`. -/
def moveAzimuthTo (s : MountState) (target : Int) : MountState :=
  { s with azimuthTarget := constrain target 0 AZIMUTH_MAX_STEPS,
           azimuthMoving := true }

/-- `moveAltitudeTo(target)`. -/
def moveAltitudeTo (s : MountState) (target : Int) : MountState :=
  { s with altitudeTarget := constrain target 0 ALTITUDE_MAX_STEPS,
           altitudeMoving := true }

/-- `moveAzimuthMotor()`. -/
def moveAzimuthMotor (s : MountState) : MountState :=
  if s.azimuthStep < s.azimuthTarget then
    stepMotor true 1 { s with azimuthStep := s.azimuthStep + 1 }
  else if s.azimuthStep > s.azimuthTarget then
    stepMotor true (-1) { s with azimuthStep := s.azimuthStep - 1 }
  else
    { s with azimuthMoving := false,
             serialOut := s.serialOut ++ ["AZIMUTH: Target reached"] }

/-- `moveAltitudeMotor()`. -/
def moveAltitudeMotor (s : MountState) : MountState :=
  if s.altitudeStep < s.altitudeTarget then
    stepMotor false 1 { s with altitudeStep := s.altitudeStep + 1 }
  else if s.altitudeStep > s.altitudeTarget then
    stepMotor false (-1) { s with altitudeStep := s.altitudeStep - 1 }
  else
    { s with altitudeMoving := false,
             serialOut := s.serialOut ++ ["ALTITUDE: Target reached"] }

/-- The `STATUS` report line (the sketch's sequence of `Serial.print`
calls making up one line). -/
def statusLine (s : MountState) : String :=
  "STATUS: AZ=" ++ toString s.azimuthStep ++
  ", AL=" ++ toString s.altitudeStep ++
  ", AZ_MOVING=" ++ (if s.azimuthMoving then "1" else "0") ++
  ", AL_MOVING=" ++ (if s.altitudeMoving then "1" else "0") ++
  ", TEST_MODE=" ++
  (if s.testAzimuthOnly then "AZ_ONLY"
   else if s.testAltitudeOnly then "AL_ONLY"
   else if s.testBothMotors then "BOTH" else "")

/-- The lines printed by the `HELP` command. -/
def helpLines : List String :=
  ["Available commands:",
   "  AZ,<steps> - Move azimuth motor to step position",
   "  AL,<steps> - Move altitude motor to step position",
   "  STATUS - Get current position and movement status",
   "  HOME - Move both motors to home position (0,0)",
   "  STOP - Stop all movement",
   "  TEST_AZ - Test azimuth motor only",
   "  TEST_AL - Test altitude motor only",
   "  TEST_BOTH - Test both motors (default)",
   "  TEST_MODE - Show current test mode",
   "  HELP - Show this help message"]

/-- `processCommand(String command)`. -/
def processCommand (input : String) (s : MountState) : MountState :=
  let command := toUpperCase (trim input)
  if startsWithStr command "AZ," then
    let steps := wrap16 (toInt (dropStr 3 command))
    let s := moveAzimuthTo s steps
    { s with serialOut := s.serialOut ++
        ["AZIMUTH: Moving to step " ++ toString steps] }
  else if startsWithStr command "AL," then
    let steps := wrap16 (toInt (dropStr 3 command))
    let s := moveAltitudeTo s steps
    { s with serialOut := s.serialOut ++
        ["ALTITUDE: Moving to step " ++ toString steps] }
  else if command = "STATUS" then
    { s with serialOut := s.serialOut ++ [statusLine s] }
  else if command = "HOME" then
    let s := moveAzimuthTo s 0
    let s := moveAltitudeTo s 0
    { s with serialOut := s.serialOut ++ ["HOME: Moving to home position"] }
  else if command = "STOP" then
    { s with azimuthMoving := false, altitudeMoving := false,
             serialOut := s.serialOut ++ ["STOP: All movement stopped"] }
  else if command = "HELP" then
    { s with serialOut := s.serialOut ++ helpLines }
  else if command = "TEST_AZ" then
    { s with testAzimuthOnly := true, testAltitudeOnly := false,
             testBothMotors := false,
             serialOut := s.serialOut ++ ["TEST_MODE: Azimuth motor only"] }
  else if command = "TEST_AL" then
    { s with testAzimuthOnly := false, testAltitudeOnly := true,
             testBothMotors := false,
             serialOut := s.serialOut ++ ["TEST_MODE: Altitude motor only"] }
  else if command = "TEST_BOTH" then
    { s with testAzimuthOnly := false, testAltitudeOnly := false,
             testBothMotors := true,
             serialOut := s.serialOut ++ ["TEST_MODE: Both motors"] }
  else if command = "TEST_MODE" then
    { s with serialOut := s.serialOut ++
        ["TEST_MODE: " ++
         (if s.testAzimuthOnly then "Azimuth motor only"
          else if s.testAltitudeOnly then "Altitude motor only"
          else if s.testBothMotors then "Both motors" else "")] }
  else
    { s with serialOut := s.serialOut ++
        ["ERROR: Unknown command '" ++ command ++
         "'. Type HELP for available commands."] }

/-- One iteration of `loop()`: dispatch a pending completed line, then give
each axis whose test-mode gate is active and whose moving flag is set one
motor tick. -/
def loopIter (s : MountState) : MountState :=
  let s :=
    if s.stringComplete then
      let s := processCommand (String.mk s.inputString) s
      { s with inputString := [], stringComplete := false }
    else s
  let s :=
    if s.azimuthMoving && (s.testAzimuthOnly || s.testBothMotors) then
      moveAzimuthMotor s
    else s
  if s.altitudeMoving && (s.testAltitudeOnly || s.testBothMotors) then
    moveAltitudeMotor s
  else s

/-- The body of `serialEvent()`'s `while` loop for one received byte:
append it to `inputString`, and set `stringComplete` on a newline. -/
def serialEventChar (s : MountState) (c : Char) : MountState :=
  let s := { s with inputString := s.inputString ++ [c] }
  if c = '\n' then { s with stringComplete := true } else s

/-- `serialEvent()` over a burst of available bytes. -/
def serialEvent (s : MountState) (cs : List Char) : MountState :=
  cs.foldl serialEventChar s

/-- An observable event of the controller: reception of one serial byte
(`serialEvent` body) or one `loop()` iteration. -/
inductive Event where
  | rx (c : Char)
  | tick
  deriving Repr, DecidableEq

/-- Apply one event to the state. -/
def stepEvent (s : MountState) (e : Event) : MountState :=
  match e with
  | .rx c => serialEventChar s c
  | .tick => loopIter s

/-- The state reached from startup by a sequence of events. -/
def run (es : List Event) : MountState :=
  es.foldl stepEvent initState

/-- A numeric suffix on which `atol` finds no digits: empty, or the first
character after leading whitespace and an optional sign is not a digit. -/
def nonNumeric (s : String) : Bool :=
  match s.data.dropWhile isSpaceChar with
  | [] => true
  | c :: rest =>
      if c = '-' ∨ c = '+' then
        match rest with
        | [] => true
        | d :: _ => !d.isDigit
      else !c.isDigit

/-- The range invariant of the two axes: positions and targets stay within
`[0, axisMaxSteps]`. -/
def RangeInv (s : MountState) : Prop :=
  0 ≤ s.azimuthStep ∧ s.azimuthStep ≤ AZIMUTH_MAX_STEPS ∧
  0 ≤ s.azimuthTarget ∧ s.azimuthTarget ≤ AZIMUTH_MAX_STEPS ∧
  0 ≤ s.altitudeStep ∧ s.altitudeStep ≤ ALTITUDE_MAX_STEPS ∧
  0 ≤ s.altitudeTarget ∧ s.altitudeTarget ≤ ALTITUDE_MAX_STEPS

/-- The azimuth clause of `loop()`:
`if (azimuthMoving && (testAzimuthOnly || testBothMotors)) moveAzimuthMotor()`. -/
def azBlock (s : MountState) : MountState :=
  if s.azimuthMoving && (s.testAzimuthOnly || s.testBothMotors)
  then moveAzimuthMotor s else s

/-- The altitude clause of `loop()`:
`if (altitudeMoving && (testAltitudeOnly || testBothMotors)) moveAltitudeMotor()`. -/
def alBlock (s : MountState) : MountState :=
  if s.altitudeMoving && (s.testAltitudeOnly || s.testBothMotors)
  then moveAltitudeMotor s else s

/-- The command-dispatch clause of `loop()`: when a completed line is
pending, dispatch it and reset the buffer and the flag. -/
def dispatchBlock (s : MountState) : MountState :=
  if s.stringComplete then
    let t := processCommand (String.mk s.inputString) s
    { t with inputString := [], stringComplete := false }
  else s

/-! ## Field-preservation lemmas for `stepMotor` and the motor ticks -/

@[simp] lemma stepMotor_azimuthStep (a : Bool) (d : Int) (s : MountState) :
    (stepMotor a d s).azimuthStep = s.azimuthStep := by
  unfold stepMotor; split <;> rfl

@[simp] lemma stepMotor_altitudeStep (a : Bool) (d : Int) (s : MountState) :
    (stepMotor a d s).altitudeStep = s.altitudeStep := by
  unfold stepMotor; split <;> rfl

@[simp] lemma stepMotor_azimuthTarget (a : Bool) (d : Int) (s : MountState) :
    (stepMotor a d s).azimuthTarget = s.azimuthTarget := by
  unfold stepMotor; split <;> rfl

@[simp] lemma stepMotor_altitudeTarget (a : Bool) (d : Int) (s : MountState) :
    (stepMotor a d s).altitudeTarget = s.altitudeTarget := by
  unfold stepMotor; split <;> rfl

@[simp] lemma stepMotor_azimuthMoving (a : Bool) (d : Int) (s : MountState) :
    (stepMotor a d s).azimuthMoving = s.azimuthMoving := by
  unfold stepMotor; split <;> rfl

@[simp] lemma stepMotor_altitudeMoving (a : Bool) (d : Int) (s : MountState) :
    (stepMotor a d s).altitudeMoving = s.altitudeMoving := by
  unfold stepMotor; split <;> rfl

@[simp] lemma stepMotor_testAzimuthOnly (a : Bool) (d : Int) (s : MountState) :
    (stepMotor a d s).testAzimuthOnly = s.testAzimuthOnly := by
  unfold stepMotor; split <;> rfl

@[simp] lemma stepMotor_testAltitudeOnly (a : Bool) (d : Int) (s : MountState) :
    (stepMotor a d s).testAltitudeOnly = s.testAltitudeOnly := by
  unfold stepMotor; split <;> rfl

@[simp] lemma stepMotor_testBothMotors (a : Bool) (d : Int) (s : MountState) :
    (stepMotor a d s).testBothMotors = s.testBothMotors := by
  unfold stepMotor; split <;> rfl

@[simp] lemma stepMotor_stringComplete (a : Bool) (d : Int) (s : MountState) :
    (stepMotor a d s).stringComplete = s.stringComplete := by
  unfold stepMotor; split <;> rfl

@[simp] lemma stepMotor_inputString (a : Bool) (d : Int) (s : MountState) :
    (stepMotor a d s).inputString = s.inputString := by
  unfold stepMotor; split <;> rfl

@[simp] lemma stepMotor_serialOut (a : Bool) (d : Int) (s : MountState) :
    (stepMotor a d s).serialOut = s.serialOut := by
  unfold stepMotor; split <;> rfl

@[simp] lemma stepMotor_currentStep (a : Bool) (d : Int) (s : MountState) :
    (stepMotor a d s).currentStep = nextPhaseIndex s.currentStep d := by
  unfold stepMotor; split <;> rfl

@[simp] lemma stepMotor_azPhysicalSteps (a : Bool) (d : Int) (s : MountState) :
    (stepMotor a d s).azPhysicalSteps =
      if a then s.azPhysicalSteps + 1 else s.azPhysicalSteps := by
  unfold stepMotor; split <;> simp_all

@[simp] lemma stepMotor_alPhysicalSteps (a : Bool) (d : Int) (s : MountState) :
    (stepMotor a d s).alPhysicalSteps =
      if a then s.alPhysicalSteps else s.alPhysicalSteps + 1 := by
  unfold stepMotor; split <;> simp_all

@[simp] lemma stepMotor_azimuthPattern (a : Bool) (d : Int) (s : MountState) :
    (stepMotor a d s).azimuthPattern =
      if a then stepSequence.getD (nextPhaseIndex s.currentStep d).toNat [0, 0, 0, 0]
      else s.azimuthPattern := by
  unfold stepMotor; split <;> simp_all

@[simp] lemma stepMotor_altitudePattern (a : Bool) (d : Int) (s : MountState) :
    (stepMotor a d s).altitudePattern =
      if a then s.altitudePattern
      else stepSequence.getD (nextPhaseIndex s.currentStep d).toNat [0, 0, 0, 0] := by
  unfold stepMotor; split <;> simp_all

@[simp] lemma moveAzimuthMotor_altitudeStep (s : MountState) :
    (moveAzimuthMotor s).altitudeStep = s.altitudeStep := by
  unfold moveAzimuthMotor; split_ifs <;> simp

@[simp] lemma moveAzimuthMotor_altitudeTarget (s : MountState) :
    (moveAzimuthMotor s).altitudeTarget = s.altitudeTarget := by
  unfold moveAzimuthMotor; split_ifs <;> simp

@[simp] lemma moveAzimuthMotor_altitudeMoving (s : MountState) :
    (moveAzimuthMotor s).altitudeMoving = s.altitudeMoving := by
  unfold moveAzimuthMotor; split_ifs <;> simp

@[simp] lemma moveAzimuthMotor_azimuthTarget (s : MountState) :
    (moveAzimuthMotor s).azimuthTarget = s.azimuthTarget := by
  unfold moveAzimuthMotor; split_ifs <;> simp

@[simp] lemma moveAzimuthMotor_testAzimuthOnly (s : MountState) :
    (moveAzimuthMotor s).testAzimuthOnly = s.testAzimuthOnly := by
  unfold moveAzimuthMotor; split_ifs <;> simp

@[simp] lemma moveAzimuthMotor_testAltitudeOnly (s : MountState) :
    (moveAzimuthMotor s).testAltitudeOnly = s.testAltitudeOnly := by
  unfold moveAzimuthMotor; split_ifs <;> simp

@[simp] lemma moveAzimuthMotor_testBothMotors (s : MountState) :
    (moveAzimuthMotor s).testBothMotors = s.testBothMotors := by
  unfold moveAzimuthMotor; split_ifs <;> simp

@[simp] lemma moveAzimuthMotor_stringComplete (s : MountState) :
    (moveAzimuthMotor s).stringComplete = s.stringComplete := by
  unfold moveAzimuthMotor; split_ifs <;> simp

@[simp] lemma moveAzimuthMotor_inputString (s : MountState) :
    (moveAzimuthMotor s).inputString = s.inputString := by
  unfold moveAzimuthMotor; split_ifs <;> simp

@[simp] lemma moveAltitudeMotor_azimuthStep (s : MountState) :
    (moveAltitudeMotor s).azimuthStep = s.azimuthStep := by
  unfold moveAltitudeMotor; split_ifs <;> simp

@[simp] lemma moveAltitudeMotor_azimuthTarget (s : MountState) :
    (moveAltitudeMotor s).azimuthTarget = s.azimuthTarget := by
  unfold moveAltitudeMotor; split_ifs <;> simp

@[simp] lemma moveAltitudeMotor_azimuthMoving (s : MountState) :
    (moveAltitudeMotor s).azimuthMoving = s.azimuthMoving := by
  unfold moveAltitudeMotor; split_ifs <;> simp

@[simp] lemma moveAltitudeMotor_altitudeTarget (s : MountState) :
    (moveAltitudeMotor s).altitudeTarget = s.altitudeTarget := by
  unfold moveAltitudeMotor; split_ifs <;> simp

@[simp] lemma moveAltitudeMotor_testAzimuthOnly (s : MountState) :
    (moveAltitudeMotor s).testAzimuthOnly = s.testAzimuthOnly := by
  unfold moveAltitudeMotor; split_ifs <;> simp

@[simp] lemma moveAltitudeMotor_testAltitudeOnly (s : MountState) :
    (moveAltitudeMotor s).testAltitudeOnly = s.testAltitudeOnly := by
  unfold moveAltitudeMotor; split_ifs <;> simp

@[simp] lemma moveAltitudeMotor_testBothMotors (s : MountState) :
    (moveAltitudeMotor s).testBothMotors = s.testBothMotors := by
  unfold moveAltitudeMotor; split_ifs <;> simp

@[simp] lemma moveAltitudeMotor_stringComplete (s : MountState) :
    (moveAltitudeMotor s).stringComplete = s.stringComplete := by
  unfold moveAltitudeMotor; split_ifs <;> simp

@[simp] lemma moveAltitudeMotor_inputString (s : MountState) :
    (moveAltitudeMotor s).inputString = s.inputString := by
  unfold moveAltitudeMotor; split_ifs <;> simp

/-- `constrain` stays inside its bounds. -/
lemma constrain_bounds (x low high : Int) (h : low ≤ high) :
    low ≤ constrain x low high ∧ constrain x low high ≤ high := by
  unfold constrain; split_ifs <;> omega

/-- `constrain` is the identity on in-range values. -/
lemma constrain_eq_self (x low high : Int) (h1 : low ≤ x) (h2 : x ≤ high) :
    constrain x low high = x := by
  unfold constrain; split_ifs <;> omega

/-! ## C3 — target clamping and unconditional arming -/

/-- C3: for every integer input `t`, `moveAzimuthTo` / `moveAltitudeTo`
store the clamped value `max 0 (min t axisMax)` as the target (2048 for
azimuth, 1024 for altitude) — never the raw input when it is out of range —
and set the moving flag unconditionally. -/
theorem C3_setTarget_clamps (s : MountState) (t : Int) :
    (moveAzimuthTo s t).azimuthTarget = max 0 (min t AZIMUTH_MAX_STEPS) ∧
    (moveAzimuthTo s t).azimuthMoving = true ∧
    (moveAltitudeTo s t).altitudeTarget = max 0 (min t ALTITUDE_MAX_STEPS) ∧
    (moveAltitudeTo s t).altitudeMoving = true ∧
    AZIMUTH_MAX_STEPS = 2048 ∧
    ALTITUDE_MAX_STEPS = 1024 ∧
    ((t < 0 ∨ t > AZIMUTH_MAX_STEPS) → (moveAzimuthTo s t).azimuthTarget ≠ t) ∧
    ((t < 0 ∨ t > ALTITUDE_MAX_STEPS) → (moveAltitudeTo s t).altitudeTarget ≠ t) := by
  have hmax : AZIMUTH_MAX_STEPS = 2048 := rfl
  have hmax2 : ALTITUDE_MAX_STEPS = 1024 := rfl
  refine ⟨?_, rfl, ?_, rfl, hmax, hmax2, ?_, ?_⟩ <;>
    simp only [moveAzimuthTo, moveAltitudeTo, constrain, hmax, hmax2] <;>
    split_ifs <;> omega

/-- Witness for C3 at the out-of-range input 3000 (azimuth) and -5
(altitude). -/
theorem C3_setTarget_clamps_witness :
    (moveAzimuthTo initState 3000).azimuthTarget = max 0 (min 3000 AZIMUTH_MAX_STEPS) ∧
    (moveAzimuthTo initState 3000).azimuthTarget ≠ 3000 ∧
    (moveAltitudeTo initState (-5)).altitudeTarget ≠ (-5) :=
  ⟨(C3_setTarget_clamps initState 3000).1,
   (C3_setTarget_clamps initState 3000).2.2.2.2.2.2.1 (Or.inr (by decide)),
   (C3_setTarget_clamps initState (-5)).2.2.2.2.2.2.2 (Or.inl (by decide))⟩

/-! ## C4 — the phase sequencer -/

/-- Adjacent entries of the coil table differ (stepping twice forward gives
a different pattern from stepping once). -/
lemma stepSequence_adjacent_ne (c : Int) (h0 : 0 ≤ c) (h8 : c < 8) :
    stepSequence.getD (((c + 1) % 8 + 1) % 8).toNat [0, 0, 0, 0] ≠
      stepSequence.getD ((c + 1) % 8).toNat [0, 0, 0, 0] := by
  interval_cases c <;> decide

/-- C4: `stepMotor`'s index update is `(i + d) mod 8` with a non-negative
modulo, the pattern written is the table entry at the new index, repeated
forward stepping is cyclic with period 8, and one step forward followed by
one step backward (or vice versa) returns to the original index. -/
theorem C4_phase_sequencer (s : MountState) (a : Bool) (d : Int)
    (hc0 : 0 ≤ s.currentStep) (hc8 : s.currentStep < 8)
    (hd : d = 1 ∨ d = -1) :
    (stepMotor a d s).currentStep = (s.currentStep + d) % 8 ∧
    0 ≤ (s.currentStep + d) % 8 ∧ (s.currentStep + d) % 8 < 8 ∧
    (if a then (stepMotor a d s).azimuthPattern
     else (stepMotor a d s).altitudePattern) =
      stepSequence.getD ((s.currentStep + d) % 8).toNat [0, 0, 0, 0] ∧
    (fun c => nextPhaseIndex c 1)^[8] s.currentStep = s.currentStep ∧
    nextPhaseIndex (nextPhaseIndex s.currentStep 1) (-1) = s.currentStep ∧
    nextPhaseIndex (nextPhaseIndex s.currentStep (-1)) 1 = s.currentStep := by
  have hnext : nextPhaseIndex s.currentStep d = (s.currentStep + d) % 8 := by
    unfold nextPhaseIndex; rcases hd with h | h <;> subst h <;> split_ifs <;> omega
  refine ⟨by simp [hnext], by omega, by omega, ?_, ?_, ?_, ?_⟩
  · cases a <;> simp [hnext]
  · have h := hc0; interval_cases s.currentStep <;> decide
  · have h := hc0; interval_cases s.currentStep <;> decide
  · have h := hc0; interval_cases s.currentStep <;> decide

/-- Witness for C4 at the startup phase index 0, azimuth pins, forward. -/
theorem C4_phase_sequencer_witness :
    (stepMotor true 1 initState).currentStep = (initState.currentStep + 1) % 8 :=
  (C4_phase_sequencer initState true 1 (by decide) (by decide) (Or.inl rfl)).1

/-! ## C10 — the phase index is shared between the two motors -/

/-- C10: `stepMotor`'s `static int currentStep` is one counter shared by
both motors: stepping either axis updates the very same index in the very
same way, and a physical step of the azimuth motor changes the coil
pattern the altitude motor will emit on its own next step (stepping one
axis is not frame-preserving for the other axis's phase). -/
theorem C10_shared_phase_index (s : MountState) (d : Int)
    (hc0 : 0 ≤ s.currentStep) (hc8 : s.currentStep < 8) :
    (stepMotor true d s).currentStep = (stepMotor false d s).currentStep ∧
    (stepMotor false 1 (stepMotor true 1 s)).altitudePattern ≠
      (stepMotor false 1 s).altitudePattern ∧
    (stepMotor true 1 (stepMotor false 1 s)).azimuthPattern ≠
      (stepMotor true 1 s).azimuthPattern := by
  refine ⟨by simp, ?_, ?_⟩ <;>
    · simp only [stepMotor_altitudePattern, stepMotor_azimuthPattern,
        stepMotor_currentStep, if_true, if_false, Bool.false_eq_true, ite_false, ite_true]
      have hx : nextPhaseIndex (nextPhaseIndex s.currentStep 1) 1 =
          ((s.currentStep + 1) % 8 + 1) % 8 := by
        unfold nextPhaseIndex; split_ifs <;> omega
      have hy : nextPhaseIndex s.currentStep 1 = (s.currentStep + 1) % 8 := by
        unfold nextPhaseIndex; split_ifs <;> omega
      rw [hx, hy]
      exact stepSequence_adjacent_ne s.currentStep hc0 hc8

/-- Witness for C10 at the startup state. -/
theorem C10_shared_phase_index_witness :
    (stepMotor false 1 (stepMotor true 1 initState)).altitudePattern ≠
      (stepMotor false 1 initState).altitudePattern :=
  (C10_shared_phase_index initState 1 (by decide) (by decide)).2.1

/-! ## C2 — single-tick behaviour of a motor -/

/-- C2 as stated is refuted: on the tick that finds `position == target`
(with the gate active and `moving` still true, as after arming at the
current position), no physical step occurs — `stepMotor` is not called. -/
theorem C2_counterexample :
    ¬ (∀ s : MountState, s.azimuthMoving = true →
         (s.testAzimuthOnly || s.testBothMotors) = true →
         (moveAzimuthMotor s).azPhysicalSteps = s.azPhysicalSteps + 1) := by
  intro h
  have hx := h (moveAzimuthTo initState 0) (by decide) (by decide)
  revert hx; decide

/-- C2 (amended): per tick a motor steps at most once: if
`position < target` the position is incremented by one, the sequencer
steps forward and exactly one physical step occurs; if `position > target`
the position is decremented by one, the sequencer steps backward and
exactly one physical step occurs; if `position == target` the moving flag
is cleared, a "target reached" line is emitted, and the position, the
phase index and the physical-step count are unchanged. -/
theorem C2_tick_behavior (s : MountState) :
    ((moveAzimuthMotor s).azimuthStep =
       if s.azimuthStep < s.azimuthTarget then s.azimuthStep + 1
       else if s.azimuthStep > s.azimuthTarget then s.azimuthStep - 1
       else s.azimuthStep) ∧
    ((moveAzimuthMotor s).azimuthMoving =
       if s.azimuthStep = s.azimuthTarget then false else s.azimuthMoving) ∧
    ((moveAzimuthMotor s).azPhysicalSteps =
       if s.azimuthStep = s.azimuthTarget then s.azPhysicalSteps
       else s.azPhysicalSteps + 1) ∧
    ((moveAzimuthMotor s).currentStep =
       if s.azimuthStep < s.azimuthTarget then nextPhaseIndex s.currentStep 1
       else if s.azimuthStep > s.azimuthTarget then nextPhaseIndex s.currentStep (-1)
       else s.currentStep) ∧
    ((moveAzimuthMotor s).serialOut =
       if s.azimuthStep = s.azimuthTarget then
         s.serialOut ++ ["AZIMUTH: Target reached"]
       else s.serialOut) ∧
    ((moveAltitudeMotor s).altitudeStep =
       if s.altitudeStep < s.altitudeTarget then s.altitudeStep + 1
       else if s.altitudeStep > s.altitudeTarget then s.altitudeStep - 1
       else s.altitudeStep) ∧
    ((moveAltitudeMotor s).altitudeMoving =
       if s.altitudeStep = s.altitudeTarget then false else s.altitudeMoving) ∧
    ((moveAltitudeMotor s).alPhysicalSteps =
       if s.altitudeStep = s.altitudeTarget then s.alPhysicalSteps
       else s.alPhysicalSteps + 1) ∧
    ((moveAltitudeMotor s).currentStep =
       if s.altitudeStep < s.altitudeTarget then nextPhaseIndex s.currentStep 1
       else if s.altitudeStep > s.altitudeTarget then nextPhaseIndex s.currentStep (-1)
       else s.currentStep) ∧
    ((moveAltitudeMotor s).serialOut =
       if s.altitudeStep = s.altitudeTarget then
         s.serialOut ++ ["ALTITUDE: Target reached"]
       else s.serialOut) := by
  refine ⟨?_, ?_, ?_, ?_, ?_, ?_, ?_, ?_, ?_, ?_⟩ <;>
    simp only [moveAzimuthMotor, moveAltitudeMotor] <;>
    split_ifs <;> simp_all <;> omega

/-! ## C8 — unrecognized commands -/

/-- C8: an input line that, after trimming and upper-casing, matches none
of the recognized commands leaves the whole controller state unchanged
except for one emitted error line that contains the normalized text. -/
theorem C8_unknown_command (input : String) (s : MountState)
    (h1 : startsWithStr (toUpperCase (trim input)) "AZ," = false)
    (h2 : startsWithStr (toUpperCase (trim input)) "AL," = false)
    (h3 : toUpperCase (trim input) ≠ "STATUS")
    (h4 : toUpperCase (trim input) ≠ "HOME")
    (h5 : toUpperCase (trim input) ≠ "STOP")
    (h6 : toUpperCase (trim input) ≠ "HELP")
    (h7 : toUpperCase (trim input) ≠ "TEST_AZ")
    (h8 : toUpperCase (trim input) ≠ "TEST_AL")
    (h9 : toUpperCase (trim input) ≠ "TEST_BOTH")
    (h10 : toUpperCase (trim input) ≠ "TEST_MODE") :
    processCommand input s =
      { s with serialOut := s.serialOut ++
          ["ERROR: Unknown command '" ++ toUpperCase (trim input) ++
           "'. Type HELP for available commands."] } := by
  simp only [processCommand, h1, h2, h3, h4, h5, h6, h7, h8, h9, h10,
    Bool.false_eq_true, if_false, ite_false]

/-- Witness for C8: the line `" garbage "` (whitespace, lower case) yields
exactly one error line naming `GARBAGE` and changes nothing else. -/
theorem C8_unknown_command_witness :
    processCommand " garbage " initState =
      { initState with serialOut :=
          ["ERROR: Unknown command 'GARBAGE'. Type HELP for available commands."] } := by
  have h := C8_unknown_command " garbage " initState (by decide) (by decide)
    (by decide) (by decide) (by decide) (by decide) (by decide) (by decide)
    (by decide) (by decide)
  rw [h]; decide

/-! ## C9 — malformed numeric arguments -/

/-- When `atol` finds no digits it yields 0. -/
lemma toInt_eq_zero_of_nonNumeric (t : String) (h : nonNumeric t = true) :
    toInt t = 0 := by
  unfold nonNumeric at h
  unfold toInt
  rcases hl : t.data.dropWhile isSpaceChar with _ | ⟨c, rest⟩
  · simp [hl, readDigits]
  · rw [hl] at h
    by_cases hc : c = '-' ∨ c = '+'
    · rcases hr : rest with _ | ⟨d, ds⟩ <;> rcases hc with hc | hc <;> subst hc <;>
        subst hr <;> simp_all [readDigits]
    · push_neg at hc
      simp only [if_neg (by tauto : ¬(c = '-' ∨ c = '+'))] at h
      have hsplit : (match c :: rest with
          | '-' :: rest => - readDigits rest 0
          | '+' :: rest => readDigits rest 0
          | l => readDigits l 0) = readDigits (c :: rest) 0 := by
        rcases hc with ⟨hm, hp⟩
        split
        · rename_i heq; injection heq with h1 h2; exact absurd h1 hm
        · rename_i heq; injection heq with h1 h2; exact absurd h1 hp
        · rfl
      rw [hsplit]
      rw [readDigits]
      simp only [Bool.not_eq_true'] at h
      simp [h]

/-- C9: an `AZ,`/`AL,` command whose suffix after the comma is empty or
non-numeric is still accepted: the axis is armed with a parsed step value
of 0 (so the target becomes `constrain 0 ... = 0`), the normal
acknowledgement is echoed with step 0, and no error is surfaced. -/
theorem C9_bad_numeric_defaults_zero (input : String) (s : MountState) :
    (startsWithStr (toUpperCase (trim input)) "AZ," = true →
     nonNumeric (dropStr 3 (toUpperCase (trim input))) = true →
     processCommand input s =
       { s with azimuthTarget := 0, azimuthMoving := true,
                serialOut := s.serialOut ++ ["AZIMUTH: Moving to step 0"] }) ∧
    (startsWithStr (toUpperCase (trim input)) "AZ," = false →
     startsWithStr (toUpperCase (trim input)) "AL," = true →
     nonNumeric (dropStr 3 (toUpperCase (trim input))) = true →
     processCommand input s =
       { s with altitudeTarget := 0, altitudeMoving := true,
                serialOut := s.serialOut ++ ["ALTITUDE: Moving to step 0"] }) := by
  constructor
  · intro haz hnn
    have hz := toInt_eq_zero_of_nonNumeric _ hnn
    simp only [processCommand, haz, if_true, hz]
    have hw : wrap16 0 = 0 := by decide
    simp [hw, moveAzimuthTo, constrain, AZIMUTH_MAX_STEPS, STEPS_PER_REVOLUTION]
    decide
  · intro haz hal hnn
    have hz := toInt_eq_zero_of_nonNumeric _ hnn
    simp only [processCommand, haz, hal, Bool.false_eq_true, if_false, if_true, hz]
    have hw : wrap16 0 = 0 := by decide
    simp [hw, moveAltitudeTo, constrain, ALTITUDE_MAX_STEPS, STEPS_PER_REVOLUTION]
    decide

/-- Witness for C9: `"AZ,"` (empty suffix) and `"al,xyz"` (non-numeric
suffix) both arm their axis with step value 0. -/
theorem C9_bad_numeric_defaults_zero_witness :
    processCommand "AZ," initState =
      { initState with azimuthTarget := 0, azimuthMoving := true,
                       serialOut := ["AZIMUTH: Moving to step 0"] } ∧
    processCommand "al,xyz" initState =
      { initState with altitudeTarget := 0, altitudeMoving := true,
                       serialOut := ["ALTITUDE: Moving to step 0"] } := by
  constructor
  · have h := (C9_bad_numeric_defaults_zero "AZ," initState).1 (by decide) (by decide)
    rw [h]; decide
  · have h := (C9_bad_numeric_defaults_zero "al,xyz" initState).2 (by decide)
      (by decide) (by decide)
    rw [h]; decide

/-! ## C7 — bytes received while a line is pending -/

/-- C7: evaluation at the failing input.  After receiving `'A'` and
`'\n'` a completed line is pending (`stringComplete` is set and the
buffer holds `"A\n"`), yet `serialEvent`'s byte handler appends a further
byte `'X'` into the very same buffer — the pending line's contents
change before the dispatcher has drained it, contradicting the parser
contract.  The buffer is reset only when `loop()` consumes the line. -/
theorem C7_pending_line_still_appends :
    (run [Event.rx 'A', Event.rx '\n']).stringComplete = true ∧
    (run [Event.rx 'A', Event.rx '\n']).inputString = ['A', '\n'] ∧
    (serialEventChar (run [Event.rx 'A', Event.rx '\n']) 'X').inputString =
      ['A', '\n', 'X'] ∧
    (serialEventChar (run [Event.rx 'A', Event.rx '\n']) 'X').stringComplete =
      true ∧
    (loopIter (run [Event.rx 'A', Event.rx '\n'])).inputString = [] := by
  refine ⟨rfl, rfl, rfl, rfl, ?_⟩
  decide

/-! ## C5 — the moving flag versus position, target and gate -/

/-- C5 as stated is refuted: the state reached from startup by receiving
`"AZ,1\n"` and executing one `loop()` iteration has `azimuthMoving = true`
although `azimuthStep = azimuthTarget = 1` and the azimuth gate is active
(the flag is cleared only one "settle" tick after arrival). -/
theorem C5_counterexample :
    ¬ (∀ es : List Event,
         ((run es).azimuthMoving = true ↔
            ((run es).azimuthStep ≠ (run es).azimuthTarget ∧
             ((run es).testAzimuthOnly || (run es).testBothMotors) = true))) := by
  intro h
  have hx := (h [Event.rx 'A', Event.rx 'Z', Event.rx ',', Event.rx '1',
      Event.rx '\n', Event.tick]).mp (by decide)
  exact hx.1 (by decide)

/-! ## Decomposition of `loopIter` when no command is pending -/

@[simp] lemma moveAzimuthMotor_azimuthStep (s : MountState) :
    (moveAzimuthMotor s).azimuthStep =
      if s.azimuthStep < s.azimuthTarget then s.azimuthStep + 1
      else if s.azimuthTarget < s.azimuthStep then s.azimuthStep - 1
      else s.azimuthStep := by
  unfold moveAzimuthMotor; split_ifs <;> simp_all <;> omega

@[simp] lemma moveAzimuthMotor_azimuthMoving (s : MountState) :
    (moveAzimuthMotor s).azimuthMoving =
      if s.azimuthStep = s.azimuthTarget then false else s.azimuthMoving := by
  unfold moveAzimuthMotor; split_ifs <;> simp_all <;> omega

@[simp] lemma moveAltitudeMotor_altitudeStep (s : MountState) :
    (moveAltitudeMotor s).altitudeStep =
      if s.altitudeStep < s.altitudeTarget then s.altitudeStep + 1
      else if s.altitudeTarget < s.altitudeStep then s.altitudeStep - 1
      else s.altitudeStep := by
  unfold moveAltitudeMotor; split_ifs <;> simp_all <;> omega

@[simp] lemma moveAltitudeMotor_altitudeMoving (s : MountState) :
    (moveAltitudeMotor s).altitudeMoving =
      if s.altitudeStep = s.altitudeTarget then false else s.altitudeMoving := by
  unfold moveAltitudeMotor; split_ifs <;> simp_all <;> omega


@[simp] lemma azBlock_azimuthTarget (s : MountState) :
    (azBlock s).azimuthTarget = s.azimuthTarget := by
  unfold azBlock; split <;> simp

@[simp] lemma azBlock_altitudeStep (s : MountState) :
    (azBlock s).altitudeStep = s.altitudeStep := by
  unfold azBlock; split <;> simp

@[simp] lemma azBlock_altitudeTarget (s : MountState) :
    (azBlock s).altitudeTarget = s.altitudeTarget := by
  unfold azBlock; split <;> simp

@[simp] lemma azBlock_altitudeMoving (s : MountState) :
    (azBlock s).altitudeMoving = s.altitudeMoving := by
  unfold azBlock; split <;> simp

@[simp] lemma azBlock_testAzimuthOnly (s : MountState) :
    (azBlock s).testAzimuthOnly = s.testAzimuthOnly := by
  unfold azBlock; split <;> simp

@[simp] lemma azBlock_testAltitudeOnly (s : MountState) :
    (azBlock s).testAltitudeOnly = s.testAltitudeOnly := by
  unfold azBlock; split <;> simp

@[simp] lemma azBlock_testBothMotors (s : MountState) :
    (azBlock s).testBothMotors = s.testBothMotors := by
  unfold azBlock; split <;> simp

@[simp] lemma azBlock_stringComplete (s : MountState) :
    (azBlock s).stringComplete = s.stringComplete := by
  unfold azBlock; split <;> simp

@[simp] lemma azBlock_inputString (s : MountState) :
    (azBlock s).inputString = s.inputString := by
  unfold azBlock; split <;> simp

@[simp] lemma alBlock_azimuthStep (s : MountState) :
    (alBlock s).azimuthStep = s.azimuthStep := by
  unfold alBlock; split <;> simp

@[simp] lemma alBlock_azimuthTarget (s : MountState) :
    (alBlock s).azimuthTarget = s.azimuthTarget := by
  unfold alBlock; split <;> simp

@[simp] lemma alBlock_azimuthMoving (s : MountState) :
    (alBlock s).azimuthMoving = s.azimuthMoving := by
  unfold alBlock; split <;> simp

@[simp] lemma alBlock_altitudeTarget (s : MountState) :
    (alBlock s).altitudeTarget = s.altitudeTarget := by
  unfold alBlock; split <;> simp

@[simp] lemma alBlock_testAzimuthOnly (s : MountState) :
    (alBlock s).testAzimuthOnly = s.testAzimuthOnly := by
  unfold alBlock; split <;> simp

@[simp] lemma alBlock_testAltitudeOnly (s : MountState) :
    (alBlock s).testAltitudeOnly = s.testAltitudeOnly := by
  unfold alBlock; split <;> simp

@[simp] lemma alBlock_testBothMotors (s : MountState) :
    (alBlock s).testBothMotors = s.testBothMotors := by
  unfold alBlock; split <;> simp

@[simp] lemma alBlock_stringComplete (s : MountState) :
    (alBlock s).stringComplete = s.stringComplete := by
  unfold alBlock; split <;> simp

@[simp] lemma alBlock_inputString (s : MountState) :
    (alBlock s).inputString = s.inputString := by
  unfold alBlock; split <;> simp

/-- With no completed line pending, one `loop()` iteration is the azimuth
clause followed by the altitude clause. -/
lemma loopIter_eq_blocks (s : MountState) (hsc : s.stringComplete = false) :
    loopIter s = alBlock (azBlock s) := by
  simp only [loopIter, hsc, Bool.false_eq_true, if_false, ite_false]
  rfl

lemma loopIter_stringComplete (s : MountState) (hsc : s.stringComplete = false) :
    (loopIter s).stringComplete = false := by
  rw [loopIter_eq_blocks s hsc]; simp [hsc]

lemma loopIter_testAzimuthOnly (s : MountState) (hsc : s.stringComplete = false) :
    (loopIter s).testAzimuthOnly = s.testAzimuthOnly := by
  rw [loopIter_eq_blocks s hsc]; simp

lemma loopIter_testAltitudeOnly (s : MountState) (hsc : s.stringComplete = false) :
    (loopIter s).testAltitudeOnly = s.testAltitudeOnly := by
  rw [loopIter_eq_blocks s hsc]; simp

lemma loopIter_testBothMotors (s : MountState) (hsc : s.stringComplete = false) :
    (loopIter s).testBothMotors = s.testBothMotors := by
  rw [loopIter_eq_blocks s hsc]; simp

lemma loopIter_azimuthTarget (s : MountState) (hsc : s.stringComplete = false) :
    (loopIter s).azimuthTarget = s.azimuthTarget := by
  rw [loopIter_eq_blocks s hsc]; simp

lemma loopIter_altitudeTarget (s : MountState) (hsc : s.stringComplete = false) :
    (loopIter s).altitudeTarget = s.altitudeTarget := by
  rw [loopIter_eq_blocks s hsc]; simp

lemma loopIter_azimuthStep (s : MountState) (hsc : s.stringComplete = false) :
    (loopIter s).azimuthStep =
      if s.azimuthMoving && (s.testAzimuthOnly || s.testBothMotors) then
        (if s.azimuthStep < s.azimuthTarget then s.azimuthStep + 1
         else if s.azimuthTarget < s.azimuthStep then s.azimuthStep - 1
         else s.azimuthStep)
      else s.azimuthStep := by
  rw [loopIter_eq_blocks s hsc, alBlock_azimuthStep]
  unfold azBlock; split <;> simp

lemma loopIter_azimuthMoving (s : MountState) (hsc : s.stringComplete = false) :
    (loopIter s).azimuthMoving =
      if s.azimuthMoving && (s.testAzimuthOnly || s.testBothMotors) then
        (if s.azimuthStep = s.azimuthTarget then false else s.azimuthMoving)
      else s.azimuthMoving := by
  rw [loopIter_eq_blocks s hsc, alBlock_azimuthMoving]
  unfold azBlock; split <;> simp

lemma loopIter_altitudeStep (s : MountState) (hsc : s.stringComplete = false) :
    (loopIter s).altitudeStep =
      if s.altitudeMoving && (s.testAltitudeOnly || s.testBothMotors) then
        (if s.altitudeStep < s.altitudeTarget then s.altitudeStep + 1
         else if s.altitudeTarget < s.altitudeStep then s.altitudeStep - 1
         else s.altitudeStep)
      else s.altitudeStep := by
  rw [loopIter_eq_blocks s hsc]
  unfold alBlock
  simp only [azBlock_altitudeMoving, azBlock_testAltitudeOnly, azBlock_testBothMotors]
  split <;> simp

lemma loopIter_altitudeMoving (s : MountState) (hsc : s.stringComplete = false) :
    (loopIter s).altitudeMoving =
      if s.altitudeMoving && (s.testAltitudeOnly || s.testBothMotors) then
        (if s.altitudeStep = s.altitudeTarget then false else s.altitudeMoving)
      else s.altitudeMoving := by
  rw [loopIter_eq_blocks s hsc]
  unfold alBlock
  simp only [azBlock_altitudeMoving, azBlock_testAltitudeOnly, azBlock_testBothMotors]
  split <;> simp

/-- C5 (amended): the moving flag is not equivalent to
`position ≠ target ∧ gate active` — it stays true for the settle tick
after arrival and survives `STOP`-cleared or gated-off configurations.
What does hold in any state with no pending command: one `loop()`
iteration changes an axis's position if and only if that axis's moving
flag is set, its test-mode gate is active, and its position differs from
its target. -/
theorem C5_motion_characterization (s : MountState)
    (hsc : s.stringComplete = false) :
    ((loopIter s).azimuthStep ≠ s.azimuthStep ↔
       (s.azimuthMoving = true ∧
        (s.testAzimuthOnly || s.testBothMotors) = true ∧
        s.azimuthStep ≠ s.azimuthTarget)) ∧
    ((loopIter s).altitudeStep ≠ s.altitudeStep ↔
       (s.altitudeMoving = true ∧
        (s.testAltitudeOnly || s.testBothMotors) = true ∧
        s.altitudeStep ≠ s.altitudeTarget)) := by
  rw [loopIter_azimuthStep s hsc, loopIter_altitudeStep s hsc]
  constructor <;> split_ifs <;> simp_all <;> (try split_ifs) <;> (try simp_all) <;> omega

/-- Witness for C5 (amended): arming azimuth to 5 from startup makes the
next iteration move it; arming it to 0 (already there) does not. -/
theorem C5_motion_characterization_witness :
    (loopIter (moveAzimuthTo initState 5)).azimuthStep ≠
      (moveAzimuthTo initState 5).azimuthStep ∧
    ¬ ((loopIter (moveAzimuthTo initState 0)).azimuthStep ≠
        (moveAzimuthTo initState 0).azimuthStep) :=
  ⟨(C5_motion_characterization (moveAzimuthTo initState 5) (by decide)).1.mpr
      ⟨by decide, by decide, by decide⟩,
   fun h => by
     have hx := (C5_motion_characterization (moveAzimuthTo initState 0)
       (by decide)).1.mp h
     exact hx.2.2 (by decide)⟩

/-! ## C6 — positions and targets stay in range -/

lemma rangeInv_initState : RangeInv initState := by
  unfold RangeInv initState AZIMUTH_MAX_STEPS ALTITUDE_MAX_STEPS STEPS_PER_REVOLUTION
  norm_num

lemma rangeInv_moveAzimuthTo (s : MountState) (t : Int) (h : RangeInv s) :
    RangeInv (moveAzimuthTo s t) := by
  unfold RangeInv moveAzimuthTo constrain AZIMUTH_MAX_STEPS ALTITUDE_MAX_STEPS
    STEPS_PER_REVOLUTION at *
  simp only [] at *
  split_ifs <;> omega

lemma rangeInv_moveAltitudeTo (s : MountState) (t : Int) (h : RangeInv s) :
    RangeInv (moveAltitudeTo s t) := by
  unfold RangeInv moveAltitudeTo constrain AZIMUTH_MAX_STEPS ALTITUDE_MAX_STEPS
    STEPS_PER_REVOLUTION at *
  simp only [] at *
  split_ifs <;> omega

lemma rangeInv_moveAzimuthMotor (s : MountState) (h : RangeInv s) :
    RangeInv (moveAzimuthMotor s) := by
  unfold RangeInv at *
  unfold moveAzimuthMotor
  split_ifs <;> simp_all <;> omega

lemma rangeInv_moveAltitudeMotor (s : MountState) (h : RangeInv s) :
    RangeInv (moveAltitudeMotor s) := by
  unfold RangeInv at *
  unfold moveAltitudeMotor
  split_ifs <;> simp_all <;> omega

lemma rangeInv_processCommand (input : String) (s : MountState)
    (h : RangeInv s) : RangeInv (processCommand input s) := by
  unfold processCommand
  by_cases hc1 : startsWithStr (toUpperCase (trim input)) "AZ," = true
  · simp only [hc1, reduceIte]
    exact rangeInv_moveAzimuthTo s _ h
  by_cases hc2 : startsWithStr (toUpperCase (trim input)) "AL," = true
  · simp only [hc1, hc2, reduceIte]
    exact rangeInv_moveAltitudeTo s _ h
  by_cases hc3 : toUpperCase (trim input) = "STATUS"
  · simp only [hc1, hc2, hc3, reduceIte]
    exact h
  by_cases hc4 : toUpperCase (trim input) = "HOME"
  · simp only [hc1, hc2, hc3, hc4, reduceIte]
    exact rangeInv_moveAltitudeTo (moveAzimuthTo s 0) 0
      (rangeInv_moveAzimuthTo s 0 h)
  by_cases hc5 : toUpperCase (trim input) = "STOP"
  · simp only [hc1, hc2, hc3, hc4, hc5, reduceIte]
    exact h
  by_cases hc6 : toUpperCase (trim input) = "HELP"
  · simp only [hc1, hc2, hc3, hc4, hc5, hc6, reduceIte]
    exact h
  by_cases hc7 : toUpperCase (trim input) = "TEST_AZ"
  · simp only [hc1, hc2, hc3, hc4, hc5, hc6, hc7, reduceIte]
    exact h
  by_cases hc8 : toUpperCase (trim input) = "TEST_AL"
  · simp only [hc1, hc2, hc3, hc4, hc5, hc6, hc7, hc8, reduceIte]
    exact h
  by_cases hc9 : toUpperCase (trim input) = "TEST_BOTH"
  · simp only [hc1, hc2, hc3, hc4, hc5, hc6, hc7, hc8, hc9, reduceIte]
    exact h
  by_cases hc10 : toUpperCase (trim input) = "TEST_MODE"
  · simp only [hc1, hc2, hc3, hc4, hc5, hc6, hc7, hc8, hc9, hc10, reduceIte]
    exact h
  simp only [hc1, hc2, hc3, hc4, hc5, hc6, hc7, hc8, hc9, hc10, reduceIte]
  exact h

lemma rangeInv_serialEventChar (s : MountState) (c : Char) (h : RangeInv s) :
    RangeInv (serialEventChar s c) := by
  unfold RangeInv serialEventChar at *
  split <;> simp_all

lemma loopIter_eq_all (s : MountState) :
    loopIter s = alBlock (azBlock (dispatchBlock s)) := rfl

lemma rangeInv_azBlock (s : MountState) (h : RangeInv s) :
    RangeInv (azBlock s) := by
  unfold azBlock
  split
  · exact rangeInv_moveAzimuthMotor s h
  · exact h

lemma rangeInv_alBlock (s : MountState) (h : RangeInv s) :
    RangeInv (alBlock s) := by
  unfold alBlock
  split
  · exact rangeInv_moveAltitudeMotor s h
  · exact h

lemma rangeInv_dispatchBlock (s : MountState) (h : RangeInv s) :
    RangeInv (dispatchBlock s) := by
  unfold dispatchBlock
  split
  · exact rangeInv_processCommand _ s h
  · exact h

lemma rangeInv_loopIter (s : MountState) (h : RangeInv s) :
    RangeInv (loopIter s) := by
  rw [loopIter_eq_all]
  exact rangeInv_alBlock _ (rangeInv_azBlock _ (rangeInv_dispatchBlock s h))

lemma rangeInv_stepEvent (s : MountState) (e : Event) (h : RangeInv s) :
    RangeInv (stepEvent s e) := by
  cases e with
  | rx c => exact rangeInv_serialEventChar s c h
  | tick => exact rangeInv_loopIter s h

lemma rangeInv_run (es : List Event) : RangeInv (run es) := by
  suffices hgen : ∀ (l : List Event) (s : MountState), RangeInv s →
      RangeInv (l.foldl stepEvent s) by
    exact hgen es initState rangeInv_initState
  intro l
  induction l with
  | nil => intro s hs; exact hs
  | cons e l ih =>
      intro s hs
      exact ih (stepEvent s e) (rangeInv_stepEvent s e hs)

/-- C6: in every state reachable from startup by any sequence of received
bytes and `loop()` iterations, both axes satisfy
`0 ≤ position ≤ axisMaxSteps` and `0 ≤ target ≤ axisMaxSteps`. -/
theorem C6_bounds_invariant (es : List Event) :
    0 ≤ (run es).azimuthStep ∧ (run es).azimuthStep ≤ AZIMUTH_MAX_STEPS ∧
    0 ≤ (run es).azimuthTarget ∧ (run es).azimuthTarget ≤ AZIMUTH_MAX_STEPS ∧
    0 ≤ (run es).altitudeStep ∧ (run es).altitudeStep ≤ ALTITUDE_MAX_STEPS ∧
    0 ≤ (run es).altitudeTarget ∧ (run es).altitudeTarget ≤ ALTITUDE_MAX_STEPS :=
  rangeInv_run es

/-! ## C1 — every armed axis reaches its target and settles -/

lemma az_reaches (g : Nat) : ∀ s : MountState,
    s.stringComplete = false →
    (s.testAzimuthOnly || s.testBothMotors) = true →
    s.azimuthMoving = true →
    (s.azimuthStep - s.azimuthTarget).natAbs = g →
    ((loopIter^[g + 1]) s).azimuthStep = s.azimuthTarget ∧
    ((loopIter^[g + 1]) s).azimuthMoving = false ∧
    ((loopIter^[g + 1]) s).stringComplete = false := by
  induction g with
  | zero =>
    intro s hsc hg hm hd
    have heq : s.azimuthStep = s.azimuthTarget := by omega
    simp only [Nat.zero_add, Function.iterate_one]
    refine ⟨?_, ?_, loopIter_stringComplete s hsc⟩
    · rw [loopIter_azimuthStep s hsc]; simp [heq]
    · rw [loopIter_azimuthMoving s hsc]; simp [hm, hg, heq]
  | succ k ih =>
    intro s hsc hg hm hd
    have hne : s.azimuthStep ≠ s.azimuthTarget := by omega
    rw [Function.iterate_succ_apply]
    have hsc' := loopIter_stringComplete s hsc
    have hg' : ((loopIter s).testAzimuthOnly || (loopIter s).testBothMotors) = true := by
      rw [loopIter_testAzimuthOnly s hsc, loopIter_testBothMotors s hsc]; exact hg
    have hm' : (loopIter s).azimuthMoving = true := by
      rw [loopIter_azimuthMoving s hsc]; simp [hm, hg, hne]
    have htar : (loopIter s).azimuthTarget = s.azimuthTarget :=
      loopIter_azimuthTarget s hsc
    have hd' : ((loopIter s).azimuthStep - (loopIter s).azimuthTarget).natAbs = k := by
      rw [loopIter_azimuthStep s hsc, htar]
      simp only [hm, hg, Bool.and_self, if_true, ite_true, Bool.true_and]
      split_ifs <;> omega
    obtain ⟨ha, hb, hc⟩ := ih (loopIter s) hsc' hg' hm' hd'
    exact ⟨by rw [ha, htar], hb, hc⟩

lemma az_stable (k : Nat) : ∀ s : MountState,
    s.stringComplete = false →
    s.azimuthMoving = false →
    ((loopIter^[k]) s).azimuthStep = s.azimuthStep ∧
    ((loopIter^[k]) s).azimuthMoving = false ∧
    ((loopIter^[k]) s).stringComplete = false := by
  induction k with
  | zero => intro s hsc hm; exact ⟨rfl, hm, hsc⟩
  | succ k ih =>
    intro s hsc hm
    rw [Function.iterate_succ_apply]
    have h1 : (loopIter s).azimuthStep = s.azimuthStep := by
      rw [loopIter_azimuthStep s hsc]; simp [hm]
    have h2 : (loopIter s).azimuthMoving = false := by
      rw [loopIter_azimuthMoving s hsc]; simp [hm]
    have h3 := loopIter_stringComplete s hsc
    obtain ⟨ha, hb, hc⟩ := ih (loopIter s) h3 h2
    exact ⟨by rw [ha, h1], hb, hc⟩

lemma al_reaches (g : Nat) : ∀ s : MountState,
    s.stringComplete = false →
    (s.testAltitudeOnly || s.testBothMotors) = true →
    s.altitudeMoving = true →
    (s.altitudeStep - s.altitudeTarget).natAbs = g →
    ((loopIter^[g + 1]) s).altitudeStep = s.altitudeTarget ∧
    ((loopIter^[g + 1]) s).altitudeMoving = false ∧
    ((loopIter^[g + 1]) s).stringComplete = false := by
  induction g with
  | zero =>
    intro s hsc hg hm hd
    have heq : s.altitudeStep = s.altitudeTarget := by omega
    simp only [Nat.zero_add, Function.iterate_one]
    refine ⟨?_, ?_, loopIter_stringComplete s hsc⟩
    · rw [loopIter_altitudeStep s hsc]; simp [heq]
    · rw [loopIter_altitudeMoving s hsc]; simp [hm, hg, heq]
  | succ k ih =>
    intro s hsc hg hm hd
    have hne : s.altitudeStep ≠ s.altitudeTarget := by omega
    rw [Function.iterate_succ_apply]
    have hsc' := loopIter_stringComplete s hsc
    have hg' : ((loopIter s).testAltitudeOnly || (loopIter s).testBothMotors) = true := by
      rw [loopIter_testAltitudeOnly s hsc, loopIter_testBothMotors s hsc]; exact hg
    have hm' : (loopIter s).altitudeMoving = true := by
      rw [loopIter_altitudeMoving s hsc]; simp [hm, hg, hne]
    have htar : (loopIter s).altitudeTarget = s.altitudeTarget :=
      loopIter_altitudeTarget s hsc
    have hd' : ((loopIter s).altitudeStep - (loopIter s).altitudeTarget).natAbs = k := by
      rw [loopIter_altitudeStep s hsc, htar]
      simp only [hm, hg, Bool.and_self, if_true, ite_true, Bool.true_and]
      split_ifs <;> omega
    obtain ⟨ha, hb, hc⟩ := ih (loopIter s) hsc' hg' hm' hd'
    exact ⟨by rw [ha, htar], hb, hc⟩

lemma al_stable (k : Nat) : ∀ s : MountState,
    s.stringComplete = false →
    s.altitudeMoving = false →
    ((loopIter^[k]) s).altitudeStep = s.altitudeStep ∧
    ((loopIter^[k]) s).altitudeMoving = false ∧
    ((loopIter^[k]) s).stringComplete = false := by
  induction k with
  | zero => intro s hsc hm; exact ⟨rfl, hm, hsc⟩
  | succ k ih =>
    intro s hsc hm
    rw [Function.iterate_succ_apply]
    have h1 : (loopIter s).altitudeStep = s.altitudeStep := by
      rw [loopIter_altitudeStep s hsc]; simp [hm]
    have h2 : (loopIter s).altitudeMoving = false := by
      rw [loopIter_altitudeMoving s hsc]; simp [hm]
    have h3 := loopIter_stringComplete s hsc
    obtain ⟨ha, hb, hc⟩ := ih (loopIter s) h3 h2
    exact ⟨by rw [ha, h1], hb, hc⟩

/-- C1: for every valid target `t` in `[0, axisMax]` (2048 azimuth, 1024
altitude), if the axis's test-mode gate is active and the axis is armed via
its `setTarget`, then after any number `n ≥ |position - t| + 1` of `loop()`
iterations (with no pending serial line) the axis's position equals `t` and
its moving flag is false. -/
theorem C1_reaches_target :
    (∀ (s : MountState) (t : Int) (n : Nat),
       0 ≤ t → t ≤ AZIMUTH_MAX_STEPS →
       (s.testAzimuthOnly || s.testBothMotors) = true →
       s.stringComplete = false →
       (s.azimuthStep - t).natAbs + 1 ≤ n →
       ((loopIter^[n]) (moveAzimuthTo s t)).azimuthStep = t ∧
       ((loopIter^[n]) (moveAzimuthTo s t)).azimuthMoving = false) ∧
    (∀ (s : MountState) (t : Int) (n : Nat),
       0 ≤ t → t ≤ ALTITUDE_MAX_STEPS →
       (s.testAltitudeOnly || s.testBothMotors) = true →
       s.stringComplete = false →
       (s.altitudeStep - t).natAbs + 1 ≤ n →
       ((loopIter^[n]) (moveAltitudeTo s t)).altitudeStep = t ∧
       ((loopIter^[n]) (moveAltitudeTo s t)).altitudeMoving = false) := by
  constructor
  · intro s t n ht0 ht1 hg hsc hn
    have htar : (moveAzimuthTo s t).azimuthTarget = t :=
      constrain_eq_self t 0 AZIMUTH_MAX_STEPS ht0 ht1
    obtain ⟨k, hk⟩ : ∃ k, n = k + ((s.azimuthStep - t).natAbs + 1) :=
      ⟨n - ((s.azimuthStep - t).natAbs + 1), by omega⟩
    subst hk
    rw [Function.iterate_add_apply]
    have hd : ((moveAzimuthTo s t).azimuthStep -
        (moveAzimuthTo s t).azimuthTarget).natAbs = (s.azimuthStep - t).natAbs := by
      rw [htar]; rfl
    obtain ⟨ha, hb, hc⟩ := az_reaches (s.azimuthStep - t).natAbs
      (moveAzimuthTo s t) hsc hg rfl hd
    obtain ⟨hx, hy, _⟩ := az_stable k _ hc hb
    exact ⟨by rw [hx, ha, htar], hy⟩
  · intro s t n ht0 ht1 hg hsc hn
    have htar : (moveAltitudeTo s t).altitudeTarget = t :=
      constrain_eq_self t 0 ALTITUDE_MAX_STEPS ht0 ht1
    obtain ⟨k, hk⟩ : ∃ k, n = k + ((s.altitudeStep - t).natAbs + 1) :=
      ⟨n - ((s.altitudeStep - t).natAbs + 1), by omega⟩
    subst hk
    rw [Function.iterate_add_apply]
    have hd : ((moveAltitudeTo s t).altitudeStep -
        (moveAltitudeTo s t).altitudeTarget).natAbs = (s.altitudeStep - t).natAbs := by
      rw [htar]; rfl
    obtain ⟨ha, hb, hc⟩ := al_reaches (s.altitudeStep - t).natAbs
      (moveAltitudeTo s t) hsc hg rfl hd
    obtain ⟨hx, hy, _⟩ := al_stable k _ hc hb
    exact ⟨by rw [hx, ha, htar], hy⟩

/-- Witness for C1: from startup, arming azimuth to 2 settles within 3
ticks and arming altitude to 1 settles within 2 ticks. -/
theorem C1_reaches_target_witness :
    (((loopIter^[3]) (moveAzimuthTo initState 2)).azimuthStep = 2 ∧
     ((loopIter^[3]) (moveAzimuthTo initState 2)).azimuthMoving = false) ∧
    (((loopIter^[2]) (moveAltitudeTo initState 1)).altitudeStep = 1 ∧
     ((loopIter^[2]) (moveAltitudeTo initState 1)).altitudeMoving = false) :=
  ⟨C1_reaches_target.1 initState 2 3 (by decide) (by decide) (by decide)
      (by decide) (by decide),
   C1_reaches_target.2 initState 1 2 (by decide) (by decide) (by decide)
      (by decide) (by decide)⟩
